import Mathlib

/-!
Verification development for the shared-video playback coordination
service (FastAPI application under app/).

Shallow embedding conventions:
  timestamps and durations (Python floats from time.time and probing)
  are modelled as rationals; the process-wide mutable dictionaries
  (the session record, the viewer registry, the on-disk storage, the
  sqlite counter) are passed explicitly as state; Python truthiness
  tests (`if _video_state["filename"]`, `if env`, ...) are modelled by
  explicit truthiness predicates on optional values; external effects
  (os.environ, shutil.which, os.path.isfile, the ffmpeg subprocess,
  MediaInfo.parse) are supplied as an explicit environment record.

Python redefines several functions in app/services/sync.py; the module
object keeps only the last definition of each name (end_video at the
bottom of the file clears all three session fields, and the bottom
check_and_expire_video is the one every call site resolves), so the
embedding follows the last definitions.
-/

namespace SharedVideo

/-- Python truthiness of an optional string: `None` and `""` are falsy. -/
def truthyStr : Option String → Bool
  | none => false
  | some s => s ≠ ""

/-- Python truthiness of an optional number: `None` and `0` are falsy. -/
def truthyQ : Option ℚ → Bool
  | none => false
  | some q => q ≠ 0

/-- The module-level `_video_state` dictionary of app/services/sync.py:
keys filename, start_time, expected_end_time, each possibly None. -/
structure VideoState where
  filename : Option String
  start_time : Option ℚ
  expected_end_time : Option ℚ
  deriving Repr, DecidableEq

/-- The initial value of `_video_state`: all three keys are None. -/
def idleState : VideoState := ⟨none, none, none⟩

/-- end_video (the last definition in the module wins): sets filename,
start_time and expected_end_time to None. -/
def end_video (_st : VideoState) : VideoState := ⟨none, none, none⟩

/-- check_and_expire_video (last definition): if expected_end_time is
truthy and now is at or past it, call end_video; otherwise leave the
state alone. -/
def check_and_expire_video (now : ℚ) (st : VideoState) : VideoState :=
  match st.expected_end_time with
  | some e => if e ≠ 0 ∧ e ≤ now then end_video st else st
  | none => st

/-- The body of _set_video_state: `now = time.time()` is read once and
both start_time and expected_end_time are derived from that one value. -/
def _set_video_state (filename : String) (duration : ℚ) (now : ℚ) : VideoState :=
  { filename := some filename
    start_time := some now
    expected_end_time := some (now + duration) }

/-- The result of get_video_status: either the idle-side dictionary
(whose status field is the literal string "no_video") or the playing
dictionary with filename, elapsed and viewers. -/
inductive Status
  | noVideo
  | playing (filename : String) (elapsed : ℚ) (viewers : ℕ)
  deriving Repr, DecidableEq

/-- The value of the "status" key in the JSON object that
get_video_status returns. -/
def statusField : Status → String
  | .noVideo => "no_video"
  | .playing _ _ _ => "playing"

/-- get_video_status: run check_and_expire_video first, then report
no_video when filename is falsy, else the playing record with
elapsed = now - start_time. Reading start_time when it is None would
raise a TypeError in Python; that crash is modelled as `none`. -/
def get_video_status (now : ℚ) (viewers : ℕ) (st : VideoState) :
    VideoState × Option Status :=
  let st1 := check_and_expire_video now st
  if ¬ truthyStr st1.filename then (st1, some .noVideo)
  else
    match st1.start_time, st1.filename with
    | some s, some f => (st1, some (.playing f (now - s) viewers))
    | _, _ => (st1, none)

/-! Upload validation (allow-list of extensions and content types). -/

/-- ALLOWED_EXTENSIONS from app/services/sync.py (a Python set; listed
here in source order, membership is all that matters). -/
def ALLOWED_EXTENSIONS : List String := [".mp4", ".mov", ".avi", ".mkv", ".webm"]

/-- ALLOWED_CONTENT_TYPES from app/services/sync.py. -/
def ALLOWED_CONTENT_TYPES : List (String × String) :=
  [ (".mp4",  "video/mp4")
  , (".mov",  "video/quicktime")
  , (".avi",  "video/x-msvideo")
  , (".mkv",  "video/x-matroska")
  , (".webm", "video/webm") ]

/-- str.lower, applied characterwise (the filenames involved are ASCII). -/
def str_lower (s : String) : String := String.mk (s.toList.map Char.toLower)

/-- Lexicographic comparison of character lists by code point, the order
Python sorted uses on these ASCII strings. -/
def charListLe : List Char → List Char → Bool
  | [], _ => true
  | _ :: _, [] => false
  | a :: as, b :: bs =>
      if a.toNat < b.toNat then true
      else if b.toNat < a.toNat then false
      else charListLe as bs

/-- String order for Python sorted. -/
def strLe (a b : String) : Bool := charListLe a.toList b.toList

/-- Index of the last occurrence of a character in a list, or -1 when
absent (the result convention of Python str.rfind). -/
def rfindChar (c : Char) (l : List Char) : Int :=
  ((l.enum.filter (fun p => p.2 = c)).map (fun p => (p.1 : Int))).getLast?.getD (-1)

/-- posixpath.splitext: split at the last dot that lies after the last
slash, unless every character between that slash and the dot is itself
a dot (so dotfiles such as .bashrc have no extension). -/
def splitext (p : String) : String × String :=
  let l := p.toList
  let sep := rfindChar '/' l
  let dot := rfindChar '.' l
  if sep < dot then
    let start := (sep + 1).toNat
    if ((l.drop start).take (dot.toNat - start)).any (fun ch => ch ≠ '.') then
      (String.mk (l.take dot.toNat), String.mk (l.drop dot.toNat))
    else (p, "")
  else (p, "")

/-- _get_extension: the splitext suffix, lowercased. -/
def _get_extension (filename : String) : String :=
  str_lower (splitext filename).2

/-- The detail string raised by _validate_extension (apostrophes are
written with hex escapes). -/
def invalidExtensionDetail (ext : String) : String :=
  "Invalid extension \x27" ++ ext ++ "\x27: only " ++
    String.intercalate ", "
      (List.insertionSort (fun a b => strLe a b = true) ALLOWED_EXTENSIONS) ++
    " are allowed."

/-- _validate_extension: raises HTTPException(400) unless the lowercased
extension is in the allow-set. -/
def _validate_extension (filename : String) : Except String Unit :=
  let ext := _get_extension filename
  if ALLOWED_EXTENSIONS.contains ext then .ok ()
  else .error (invalidExtensionDetail ext)

/-- The detail string raised by _validate_content_type. -/
def invalidContentTypeDetail (contentType ext expected : String) : String :=
  "Invalid content type \x27" ++ contentType ++ "\x27 for \x27" ++ ext ++
    "\x27, expected \x27" ++ expected ++ "\x27."

/-- _validate_content_type: a falsy declared content type passes; an
extension with no expected mapping passes; otherwise the declared type
must equal the expected one. -/
def _validate_content_type (contentType : Option String) (filename : String) :
    Except String Unit :=
  match contentType with
  | none => .ok ()
  | some ct =>
      if ct = "" then .ok ()
      else
        let ext := _get_extension filename
        match ALLOWED_CONTENT_TYPES.lookup ext with
        | some expected => if ct ≠ expected then .error (invalidContentTypeDetail ct ext expected) else .ok ()
        | none => .ok ()

/-! Storage (the shared_video directory on disk). -/

/-- The on-disk store: an association of paths to byte contents. -/
abbrev Storage := List (String × List ℕ)

/-- os.path.join for two components (posix rules): an absolute second
component discards the first. -/
def os_path_join (a b : String) : String :=
  if b.toList.head? = some '/' then b
  else if a = "" ∨ a.toList.getLast? = some '/' then a ++ b
  else a ++ "/" ++ b

/-- _shared_dir from app/services/sync.py. -/
def _shared_dir : String := "shared_video"

/-- _get_upload_path: join the shared directory with the client-supplied
filename as-is (os.makedirs only creates the directory). -/
def _get_upload_path (filename : String) : String :=
  os_path_join _shared_dir filename

/-- _save_file: open(path, "wb") truncates, so any existing file at that
path is replaced. -/
def _save_file (contents : List ℕ) (path : String) (storage : Storage) : Storage :=
  (path, contents) :: storage.filter (fun kv => kv.1 ≠ path)

/-- _cleanup_file: os.remove the path, ignoring OSError. -/
def _cleanup_file (path : String) (storage : Storage) : Storage :=
  storage.filter (fun kv => kv.1 ≠ path)

/-- Look a path up in the store. -/
def Storage.read (storage : Storage) (path : String) : Option (List ℕ) :=
  storage.lookup path

/-! Viewer presence tracker (app/utils/viewer_count.py). -/

/-- The module-level `_viewers` dictionary: viewer id to last-seen time. -/
abbrev Viewers := List (String × ℚ)

/-- viewer_ping: `viewer_id = viewer_id or str(now)` (a falsy id, None or
empty, is replaced by the textual timestamp), then `_viewers[key] = now`
records or overwrites the entry. -/
def viewer_ping (viewer_id : Option String) (now : ℚ) (vs : Viewers) : Viewers :=
  let key := match viewer_id with
    | some k => if k = "" then toString now else k
    | none => toString now
  (key, now) :: vs.filter (fun kv => kv.1 ≠ key)

/-- get_viewer_count: delete every entry with now - last_seen > 15, then
return the size of what remains (the pruned registry is the new state). -/
def get_viewer_count (now : ℚ) (vs : Viewers) : Viewers × ℕ :=
  let kept := vs.filter (fun kv => ¬ (15 < now - kv.2))
  (kept, kept.length)

/-- Look a viewer id up in the registry. -/
def Viewers.lastSeen (vs : Viewers) (id : String) : Option ℚ :=
  vs.lookup id

/-! External environment: os.environ, shutil.which, os.path.isfile, the
ffmpeg subprocess and MediaInfo.parse, supplied as oracles. -/

structure SysEnv where
  environ : String → Option String
  which : String → Option String
  isfile : String → Bool
  ffmpegReturncode : String → Int
  ffmpegStderr : String → String
  mediaTracks : String → List (String × Option ℚ)

/-- The detail of the HTTPException raised when ffmpeg cannot be located
(the two adjacent source string literals concatenated; apostrophes are
written with hex escapes). -/
def ffmpegNotFoundDetail : String :=
  "\x27ffmpeg\x27 not found: install ffmpeg and ensure it\x27s on your PATH, or set FFMPEG_PATH to the full path of the ffmpeg executable."

/-- The posix fallback install locations tried by _ensure_ffmpeg_available
(the os.name == "nt" branch has its own list; the posix branch is the one
modelled, the claims quantify over the lookup oracles either way). -/
def ffmpegCandidates : List String :=
  ["/usr/local/bin/ffmpeg", "/opt/homebrew/bin/ffmpeg", "/usr/bin/ffmpeg", "/snap/bin/ffmpeg"]

/-- _ensure_ffmpeg_available: return the cached FFMPEG_CMD when truthy;
else try the FFMPEG_PATH environment override (must name an existing
file), then shutil.which (on success the command is the bare string
"ffmpeg"), then the fallback install locations; when everything fails,
raise HTTPException(400) with the not-found detail. -/
def _ensure_ffmpeg_available (env : SysEnv) (cached : Option String) :
    Except String String :=
  if truthyStr cached then .ok (cached.getD "")
  else
    let fromEnv : Option String :=
      match env.environ "FFMPEG_PATH" with
      | some p => if p ≠ "" ∧ env.isfile p then some p else none
      | none => none
    match fromEnv with
    | some p => .ok p
    | none =>
      let fromWhich : Option String :=
        match env.which "ffmpeg" with
        | some w => if w ≠ "" then some "ffmpeg" else none
        | none => none
      match fromWhich with
      | some c => .ok c
      | none =>
        match ffmpegCandidates.find? env.isfile with
        | some p => .ok p
        | none => .error ffmpegNotFoundDetail

/-- str.strip for the stderr text. -/
def pyStrip (s : String) : String :=
  String.mk (((s.toList.dropWhile Char.isWhitespace).reverse.dropWhile Char.isWhitespace).reverse)

/-- _check_video_corruption: locate ffmpeg, run the decode scan, and on a
non-zero exit raise HTTPException(400) carrying the stripped stderr (or
"unknown error" when stderr is blank). -/
def _check_video_corruption (env : SysEnv) (cached : Option String) (path : String) :
    Except String Unit := do
  let _cmd ← _ensure_ffmpeg_available env cached
  if env.ffmpegReturncode path ≠ 0 then
    let errs := pyStrip (env.ffmpegStderr path)
    .error ("Video corruption detected: " ++ (if errs = "" then "unknown error" else errs))
  else .ok ()

/-- _get_video_duration: the first track whose type is "Video" and whose
duration is truthy yields duration (milliseconds) / 1000; otherwise raise
HTTPException(400, "No video track found in file."). -/
def _get_video_duration (env : SysEnv) (path : String) : Except String ℚ :=
  match (env.mediaTracks path).find?
      (fun t => t.1 = "Video" && match t.2 with | some d => d ≠ 0 | none => false) with
  | some t => .ok (t.2.getD 0 / 1000)
  | none => .error "No video track found in file."

/-! Upload orchestration (upload_video in app/services/sync.py and the
POST /upload route in app/api/routes.py). -/

/-- The argument of upload_video: the multipart file. -/
structure UploadFileM where
  filename : String
  content_type : Option String
  contents : List ℕ
  deriving Repr, DecidableEq

/-- The dictionary upload_video returns (success plus the optional error,
message, filename and duration keys). -/
structure UploadResult where
  success : Bool
  error : Option String
  message : Option String
  filename : Option String
  duration : Option ℚ
  deriving Repr, DecidableEq

/-- Either the HTTPException(409) escaping upload_video, or its returned
dictionary. -/
inductive UploadOutcome
  | conflict
  | result (r : UploadResult)
  deriving Repr, DecidableEq

/-- The first try block of upload_video: _validate_extension then
_validate_content_type, the first raised HTTPException short-circuiting. -/
def validate_upload (file : UploadFileM) : Except String Unit := do
  _validate_extension file.filename
  _validate_content_type file.content_type file.filename

/-- The second try block of upload_video: _check_video_corruption then
_get_video_duration, the first raised exception short-circuiting. -/
def probe_video (env : SysEnv) (cached : Option String) (path : String) :
    Except String ℚ := do
  _check_video_corruption env cached path
  _get_video_duration env path

/-- upload_video: expire lazily; 409 when a session is active; validate
extension and content type before any write (failures come back as a
success=False dictionary); write the bytes; corruption-check and probe,
deleting the just-written file on either failure (the HTTPException and
the generic Exception handler behave identically: cleanup plus the
success=False dictionary carrying the reason); finally publish the
session in one _set_video_state call and return success. -/
def upload_video (env : SysEnv) (cached : Option String) (now : ℚ)
    (st : VideoState) (storage : Storage) (file : UploadFileM) :
    VideoState × Storage × UploadOutcome :=
  let st1 := check_and_expire_video now st
  if truthyStr st1.filename then (st1, storage, .conflict)
  else
    match validate_upload file with
    | .error d => (st1, storage, .result ⟨false, some d, none, none, none⟩)
    | .ok _ =>
      let path := _get_upload_path file.filename
      let storage1 := _save_file file.contents path storage
      match probe_video env cached path with
      | .error d => (st1, _cleanup_file path storage1, .result ⟨false, some d, none, none, none⟩)
      | .ok duration =>
        (_set_video_state file.filename duration now, storage1,
         .result ⟨true, none, some "Video uploaded", some file.filename, some duration⟩)

/-- increment_video_stat: one more on the single durable counter row. -/
def increment_video_stat (videos_played : ℕ) : ℕ := videos_played + 1

/-- The HTTP response of POST /upload: a JSON payload with a status code,
or the FastAPI rendering of an uncaught HTTPException. -/
inductive UploadHttpResponse
  | json (status : ℕ) (body : UploadResult)
  | raised (status : ℕ) (detail : String)
  deriving Repr, DecidableEq

/-- The upload route: only a raised HTTPException is caught (400 becomes
a 400 JSON response, anything else re-raises); on a returned dictionary
the counter is incremented and the body is the merge
of success=True with the dictionary, whose own success key overwrites
True, served with the default status 200. upload_video only ever raises
the 409 conflict, so the caught-400 branch is dead code. -/
def route_upload (env : SysEnv) (cached : Option String) (now : ℚ)
    (st : VideoState) (storage : Storage) (videos_played : ℕ) (file : UploadFileM) :
    VideoState × Storage × ℕ × UploadHttpResponse :=
  match upload_video env cached now st storage file with
  | (st2, storage2, .conflict) =>
      (st2, storage2, videos_played, .raised 409 "Video already playing")
  | (st2, storage2, .result r) =>
      (st2, storage2, increment_video_stat videos_played, .json 200 r)

/-- get_video_filename_path: expire lazily, then 404 when no (truthy)
filename is set, else the upload path and filename of the active asset. -/
def get_video_filename_path (now : ℚ) (st : VideoState) :
    VideoState × Except ℕ (String × String) :=
  let st1 := check_and_expire_video now st
  match st1.filename with
  | some f => if f = "" then (st1, .error 404) else (st1, .ok (_get_upload_path f, f))
  | none => (st1, .error 404)

/-! Concrete environments used to exercise the model. -/

/-- An environment in which every lookup fails: no FFMPEG_PATH, nothing
on the PATH, no file exists, and probing finds no tracks. -/
def emptyEnv : SysEnv :=
  ⟨fun _ => none, fun _ => none, fun _ => false, fun _ => 0, fun _ => "", fun _ => []⟩

/-- An environment with ffmpeg on the PATH, a clean decode scan and a
single video track of the given duration in milliseconds. -/
def okEnv (ms : ℚ) : SysEnv :=
  ⟨fun _ => none, fun _ => some "/usr/bin/ffmpeg", fun _ => false,
   fun _ => 0, fun _ => "", fun _ => [("Video", some ms)]⟩

/-- An environment with ffmpeg on the PATH whose decode scan exits with
code 1 and stderr " bad data ". -/
def corruptEnv : SysEnv :=
  ⟨fun _ => none, fun _ => some "/usr/bin/ffmpeg", fun _ => false,
   fun _ => 1, fun _ => " bad data ", fun _ => []⟩

/-! The all-or-nothing session invariant and helper lemmas. -/

/-- The spec invariant on the session record: either all three fields
are set (playing) or all three are None (idle). -/
def stateInv (st : VideoState) : Prop :=
  (∃ f s e, st = ⟨some f, some s, some e⟩) ∨ st = ⟨none, none, none⟩

theorem check_and_expire_cases (now : ℚ) (st : VideoState) :
    check_and_expire_video now st = st ∨
    check_and_expire_video now st = ⟨none, none, none⟩ := by
  unfold check_and_expire_video end_video
  split
  · split
    · exact Or.inr rfl
    · exact Or.inl rfl
  · exact Or.inl rfl

theorem check_and_expire_not_due (now : ℚ) (fn : Option String) (s : Option ℚ)
    (e : ℚ) (h : now < e) :
    check_and_expire_video now ⟨fn, s, some e⟩ = ⟨fn, s, some e⟩ := by
  unfold check_and_expire_video
  simp only
  rw [if_neg]
  intro hc
  exact absurd hc.2 (not_le.mpr h)

theorem check_and_expire_due (now : ℚ) (fn : Option String) (s : Option ℚ)
    (e : ℚ) (hne : e ≠ 0) (h : e ≤ now) :
    check_and_expire_video now ⟨fn, s, some e⟩ = ⟨none, none, none⟩ := by
  unfold check_and_expire_video end_video
  simp only
  rw [if_pos ⟨hne, h⟩]

theorem get_video_status_fst (now : ℚ) (viewers : ℕ) (st : VideoState) :
    (get_video_status now viewers st).1 = check_and_expire_video now st := by
  unfold get_video_status
  dsimp only
  split
  · rfl
  · split <;> rfl

theorem get_video_filename_path_fst (now : ℚ) (st : VideoState) :
    (get_video_filename_path now st).1 = check_and_expire_video now st := by
  unfold get_video_filename_path
  dsimp only
  split
  · split <;> rfl
  · rfl

theorem upload_video_fst (env : SysEnv) (cached : Option String) (now : ℚ)
    (st : VideoState) (storage : Storage) (file : UploadFileM) :
    (upload_video env cached now st storage file).1 = check_and_expire_video now st ∨
    ∃ d, (upload_video env cached now st storage file).1
      = _set_video_state file.filename d now := by
  unfold upload_video
  dsimp only
  split
  · exact Or.inl rfl
  · split
    · exact Or.inl rfl
    · split
      · exact Or.inl rfl
      · exact Or.inr ⟨_, rfl⟩

theorem lookup_filter_ne (l : List (String × List ℕ)) (p : String) :
    List.lookup p (l.filter (fun kv => kv.1 ≠ p)) = none := by
  induction l with
  | nil => rfl
  | cons hd tl ih =>
      by_cases h : hd.1 = p
      · simpa [h] using ih
      · have hb : (p == hd.1) = false := beq_eq_false_iff_ne.mpr (fun hh => h hh.symm)
        simp [List.filter, h, List.lookup, hb, ih]
        exact fun a b _ hne hp => hne hp.symm

/-- C9: for every filename, duration and start instant now,
_set_video_state (the start transition) unconditionally populates the
session with start_time = now and expected_end_time = start_time +
duration, both derived from the one value of now. -/
theorem C9_start_sets_times (f : String) (duration now : ℚ) :
    (_set_video_state f duration now).filename = some f ∧
    (_set_video_state f duration now).start_time = some now ∧
    (_set_video_state f duration now).expected_end_time = some (now + duration) ∧
    ∃ s, (_set_video_state f duration now).start_time = some s ∧
      (_set_video_state f duration now).expected_end_time = some (s + duration) :=
  ⟨rfl, rfl, rfl, now, rfl, rfl⟩

/-- C3: every session operation (explicit end, start, lazy expiry, the
upload orchestration, and the state left behind by the status and
file-path queries) preserves the all-set-or-all-None invariant on the
three session fields. -/
theorem C3_all_or_nothing_invariant
    (st : VideoState) (now duration : ℚ) (f : String)
    (env : SysEnv) (cached : Option String) (storage : Storage)
    (file : UploadFileM) (viewers : ℕ)
    (h : stateInv st) :
    stateInv (end_video st) ∧
    stateInv (_set_video_state f duration now) ∧
    stateInv (check_and_expire_video now st) ∧
    stateInv (upload_video env cached now st storage file).1 ∧
    stateInv (get_video_status now viewers st).1 ∧
    stateInv (get_video_filename_path now st).1 := by
  have hexp : stateInv (check_and_expire_video now st) := by
    rcases check_and_expire_cases now st with hc | hc
    · rw [hc]; exact h
    · rw [hc]; exact Or.inr rfl
  refine ⟨Or.inr rfl, Or.inl ⟨f, now, now + duration, rfl⟩, hexp, ?_, ?_, ?_⟩
  · rcases upload_video_fst env cached now st storage file with hu | ⟨d, hu⟩
    · rw [hu]; exact hexp
    · rw [hu]; exact Or.inl ⟨file.filename, now, now + d, rfl⟩
  · rw [get_video_status_fst]; exact hexp
  · rw [get_video_filename_path_fst]; exact hexp

theorem C3_witness :
    stateInv idleState ∧
    (stateInv (end_video idleState) ∧
     stateInv (_set_video_state "clip.mp4" 30 1000) ∧
     stateInv (check_and_expire_video 1000 idleState) ∧
     stateInv (upload_video emptyEnv none 1000 idleState [] ⟨"clip.mp4", none, [1]⟩).1 ∧
     stateInv (get_video_status 1000 0 idleState).1 ∧
     stateInv (get_video_filename_path 1000 idleState).1) :=
  ⟨Or.inr rfl,
   C3_all_or_nothing_invariant idleState 1000 30 "clip.mp4" emptyEnv none []
     ⟨"clip.mp4", none, [1]⟩ 0 (Or.inr rfl)⟩

/-- C2: an upload attempted while a session is active (nonempty filename)
and not yet expired (now before expected_end_time) propagates the 409
conflict, writes nothing to storage, leaves all three session fields
unchanged, and does not touch the play counter. -/
theorem C2_conflict_leaves_state_unchanged
    (env : SysEnv) (cached : Option String) (now : ℚ) (f : String)
    (s e : ℚ) (storage : Storage) (counter : ℕ) (file : UploadFileM)
    (hf : f ≠ "") (hlt : now < e) :
    route_upload env cached now ⟨some f, some s, some e⟩ storage counter file
      = (⟨some f, some s, some e⟩, storage, counter,
         .raised 409 "Video already playing") := by
  have h1 := check_and_expire_not_due now (some f) (some s) e hlt
  unfold route_upload upload_video
  dsimp only
  rw [h1]
  simp [truthyStr, hf]

theorem C2_witness :
    ("a.mp4" ≠ "" ∧ (1000 : ℚ) < 1200) ∧
    route_upload emptyEnv none 1000 ⟨some "a.mp4", some 900, some 1200⟩ [] 5
        ⟨"b.mp4", none, [1]⟩
      = (⟨some "a.mp4", some 900, some 1200⟩, [], 5,
         .raised 409 "Video already playing") :=
  ⟨⟨by decide, by norm_num⟩,
   C2_conflict_leaves_state_unchanged emptyEnv none 1000 "a.mp4" 900 1200 [] 5
     ⟨"b.mp4", none, [1]⟩ (by decide) (by norm_num)⟩

/-- C7: viewer_ping on a nonempty id records or overwrites its last-seen
time; get_viewer_count keeps exactly the entries seen within the last 15
seconds of the query time and returns their number; an id touched at
t=0 is counted at t=14 and no longer counted at t=16. -/
theorem C7_viewer_window (vs : Viewers) (id : String) (now qt : ℚ)
    (hid : id ≠ "") :
    Viewers.lastSeen (viewer_ping (some id) now vs) id = some now ∧
    (get_viewer_count qt vs).1 = vs.filter (fun kv => decide (qt - kv.2 ≤ 15)) ∧
    (get_viewer_count qt vs).2
      = (vs.filter (fun kv => decide (qt - kv.2 ≤ 15))).length ∧
    (get_viewer_count 14 (viewer_ping (some "A") 0 [])).2 = 1 ∧
    (get_viewer_count 16 (viewer_ping (some "A") 0 [])).2 = 0 := by
  have hfilter : (vs.filter (fun kv => decide (¬ (15 < qt - kv.2))))
      = vs.filter (fun kv => decide (qt - kv.2 ≤ 15)) :=
    List.filter_congr (fun x _ => by simp [not_lt])
  refine ⟨?_, ?_, ?_, ?_, ?_⟩
  · simp [viewer_ping, Viewers.lastSeen, hid, List.lookup]
  · simp only [get_viewer_count]
    exact hfilter
  · simp only [get_viewer_count]
    exact congrArg List.length hfilter
  · have h1 : viewer_ping (some "A") 0 [] = [("A", 0)] := by
      simp [viewer_ping]
    rw [h1]
    simp [get_viewer_count]
    norm_num
  · have h1 : viewer_ping (some "A") 0 [] = [("A", 0)] := by
      simp [viewer_ping]
    rw [h1]
    simp [get_viewer_count]
    norm_num

theorem C7_witness :
    "A" ≠ "" ∧
    Viewers.lastSeen (viewer_ping (some "A") 3 [("B", 1)]) "A" = some 3 :=
  ⟨by decide, (C7_viewer_window [("B", 1)] "A" 3 0 (by decide)).1⟩

/-- C10: the upload path is exactly the posix join of the fixed
shared_video directory with the client-supplied filename, unsanitized;
saving twice under one path overwrites (the second contents win);
filenames with dot-dot segments or a leading slash pass validation and
produce paths outside the shared directory (a leading slash discards
the shared directory altogether). -/
theorem C10_unsanitized_paths (f p : String) (c1 c2 : List ℕ) (storage : Storage) :
    _get_upload_path f = os_path_join _shared_dir f ∧
    Storage.read (_save_file c2 p (_save_file c1 p storage)) p = some c2 ∧
    validate_upload ⟨"../evil.mp4", none, []⟩ = .ok () ∧
    _get_upload_path "../evil.mp4" = "shared_video/../evil.mp4" ∧
    validate_upload ⟨"/etc/evil.mp4", none, []⟩ = .ok () ∧
    _get_upload_path "/etc/evil.mp4" = "/etc/evil.mp4" := by
  refine ⟨rfl, ?_, by rfl, by decide, by rfl, by decide⟩
  simp [Storage.read, _save_file, List.lookup]

/-- C1 counterexample: at a query time at or past the expected end time
the status query does expire the session, but the idle-side JSON it
returns carries status "no_video", not the claimed exact shape
status "idle"; and for a session record whose expected_end_time is the
(falsy) timestamp 0, the truthiness guard skips expiry and a playing
status is served at now = expected_end_time. -/
theorem C1_counterexample :
    statusField Status.noVideo = "no_video" ∧
    statusField Status.noVideo ≠ "idle" ∧
    (1030 : ℚ) ≤ 1031 ∧
    (get_video_status 1031 0 ⟨some "clip.mp4", some 1000, some 1030⟩).2
      = some Status.noVideo ∧
    (0 : ℚ) ≤ 0 ∧
    (get_video_status 0 7 ⟨some "x.mp4", some 0, some 0⟩).2
      = some (Status.playing "x.mp4" 0 7) := by
  have h1 : check_and_expire_video 1031 ⟨some "clip.mp4", some 1000, some 1030⟩
      = ⟨none, none, none⟩ :=
    check_and_expire_due 1031 (some "clip.mp4") (some 1000) 1030 (by norm_num) (by norm_num)
  have h2 : check_and_expire_video 0 ⟨some "x.mp4", some 0, some 0⟩
      = ⟨some "x.mp4", some 0, some 0⟩ := by
    simp [check_and_expire_video]
  refine ⟨rfl, by decide, by norm_num, ?_, le_refl 0, ?_⟩
  · unfold get_video_status
    rw [h1]
    rfl
  · unfold get_video_status
    rw [h2]
    show (some (Status.playing "x.mp4" ((0 : ℚ) - 0) 7)) = _
    norm_num

/-- C1 amended: for every session record whose expected_end_time is set
and nonzero (as in every session a successful upload at a positive wall
clock creates), a status query at or past the expected end time first
expires the session and reports the idle dictionary, whose status field
is the string "no_video"; it never reports a playing status there. -/
theorem C1_status_past_expiry_is_no_video
    (fn : Option String) (s : Option ℚ) (e now : ℚ) (viewers : ℕ)
    (hne : e ≠ 0) (hle : e ≤ now) :
    (get_video_status now viewers ⟨fn, s, some e⟩).2 = some Status.noVideo ∧
    statusField Status.noVideo = "no_video" ∧
    ∀ f el v,
      (get_video_status now viewers ⟨fn, s, some e⟩).2
        ≠ some (Status.playing f el v) := by
  have h1 := check_and_expire_due now fn s e hne hle
  have h2 : (get_video_status now viewers ⟨fn, s, some e⟩).2 = some Status.noVideo := by
    unfold get_video_status
    rw [h1]
    rfl
  refine ⟨h2, rfl, fun f el v hc => ?_⟩
  rw [h2] at hc
  exact Status.noConfusion (Option.some.inj hc)

theorem C1_witness :
    ((1030 : ℚ) ≠ 0 ∧ (1030 : ℚ) ≤ 1040) ∧
    ((get_video_status 1040 2 ⟨some "clip.mp4", some 1000, some 1030⟩).2
        = some Status.noVideo ∧
     statusField Status.noVideo = "no_video" ∧
     ∀ f el v,
       (get_video_status 1040 2 ⟨some "clip.mp4", some 1000, some 1030⟩).2
         ≠ some (Status.playing f el v)) :=
  ⟨⟨by norm_num, by norm_num⟩,
   C1_status_past_expiry_is_no_video (some "clip.mp4") (some 1000) 1030 1040 2
     (by norm_num) (by norm_num)⟩

/-- C6: when an upload reaches the probe stage (no active session after
lazy expiry, validation passed) and the probe step fails with any
reason, the returned dictionary is the rejection carrying exactly that
reason and the just-written file is gone from storage on that exit
path. -/
theorem C6_probe_failure_cleans_up
    (env : SysEnv) (cached : Option String) (now : ℚ) (st : VideoState)
    (storage : Storage) (file : UploadFileM) (d : String)
    (hidle : truthyStr (check_and_expire_video now st).filename = false)
    (hval : validate_upload file = .ok ())
    (hprobe : probe_video env cached (_get_upload_path file.filename) = .error d) :
    (upload_video env cached now st storage file).2.2
      = .result ⟨false, some d, none, none, none⟩ ∧
    Storage.read (upload_video env cached now st storage file).2.1
      (_get_upload_path file.filename) = none := by
  unfold upload_video
  dsimp only
  rw [hidle, hval, hprobe]
  exact ⟨rfl, lookup_filter_ne _ _⟩

theorem C6_witness :
    (truthyStr (check_and_expire_video 0 idleState).filename = false ∧
     validate_upload ⟨"clip.mp4", some "video/mp4", [1, 2]⟩ = .ok () ∧
     probe_video corruptEnv none (_get_upload_path "clip.mp4")
       = .error "Video corruption detected: bad data") ∧
    ((upload_video corruptEnv none 0 idleState [("shared_video/clip.mp4", [9])]
        ⟨"clip.mp4", some "video/mp4", [1, 2]⟩).2.2
      = .result ⟨false, some "Video corruption detected: bad data", none, none, none⟩ ∧
     Storage.read (upload_video corruptEnv none 0 idleState
        [("shared_video/clip.mp4", [9])] ⟨"clip.mp4", some "video/mp4", [1, 2]⟩).2.1
       (_get_upload_path "clip.mp4") = none) :=
  ⟨⟨rfl, rfl, rfl⟩,
   C6_probe_failure_cleans_up corruptEnv none 0 idleState
     [("shared_video/clip.mp4", [9])] ⟨"clip.mp4", some "video/mp4", [1, 2]⟩
     "Video corruption detected: bad data" rfl rfl rfl⟩

/-- C8 counterexample: when every lookup for the decoding tool fails,
_ensure_ffmpeg_available raises its HTTPException(400), upload_video
catches it like any probe failure and returns the ordinary per-upload
rejection dictionary carrying the not-found message, so the failure is
translated into a per-upload rejection payload rather than surfaced as
a distinct configuration error. -/
theorem C8_counterexample :
    _ensure_ffmpeg_available emptyEnv none = .error ffmpegNotFoundDetail ∧
    upload_video emptyEnv none 0 idleState [] ⟨"clip.mp4", none, [1]⟩
      = (idleState, [],
         .result ⟨false, some ffmpegNotFoundDetail, none, none, none⟩) ∧
    (UploadResult.mk false (some ffmpegNotFoundDetail) none none none).success
      = false := by
  refine ⟨rfl, ?_, rfl⟩
  simp [upload_video, check_and_expire_video, truthyStr, idleState,
        validate_upload, _validate_extension, _validate_content_type,
        probe_video, _check_video_corruption, _ensure_ffmpeg_available,
        emptyEnv, _save_file, _cleanup_file, ffmpegCandidates]
  decide

/-- C8 amended: a failed tool lookup is translated into the same
per-upload rejection payload as a probe failure, carrying the locator
HTTPException detail (the distinct not-found message); the corruption
check is not silently skipped: such an upload is always rejected and
the written bytes are removed, and no success dictionary is produced. -/
theorem C8_missing_tool_rejects_upload
    (env : SysEnv) (cached : Option String) (now : ℚ) (st : VideoState)
    (storage : Storage) (file : UploadFileM) (d : String)
    (hidle : truthyStr (check_and_expire_video now st).filename = false)
    (hval : validate_upload file = .ok ())
    (hff : _ensure_ffmpeg_available env cached = .error d) :
    (upload_video env cached now st storage file).2.2
      = .result ⟨false, some d, none, none, none⟩ ∧
    Storage.read (upload_video env cached now st storage file).2.1
      (_get_upload_path file.filename) = none ∧
    ∀ r, (upload_video env cached now st storage file).2.2 = .result r →
      r.success = false := by
  have hprobe : probe_video env cached (_get_upload_path file.filename)
      = .error d := by
    unfold probe_video _check_video_corruption
    rw [hff]
    rfl
  unfold upload_video
  dsimp only
  rw [hidle, hval, hprobe]
  refine ⟨rfl, lookup_filter_ne _ _, fun r hr => ?_⟩
  cases hr
  rfl

theorem C8_witness :
    (truthyStr (check_and_expire_video 0 idleState).filename = false ∧
     validate_upload ⟨"movie.webm", none, [5]⟩ = .ok () ∧
     _ensure_ffmpeg_available emptyEnv none = .error ffmpegNotFoundDetail) ∧
    ((upload_video emptyEnv none 0 idleState [] ⟨"movie.webm", none, [5]⟩).2.2
      = .result ⟨false, some ffmpegNotFoundDetail, none, none, none⟩ ∧
     Storage.read (upload_video emptyEnv none 0 idleState []
        ⟨"movie.webm", none, [5]⟩).2.1 (_get_upload_path "movie.webm") = none ∧
     ∀ r, (upload_video emptyEnv none 0 idleState [] ⟨"movie.webm", none, [5]⟩).2.2
        = .result r → r.success = false) :=
  ⟨⟨rfl, rfl, rfl⟩,
   C8_missing_tool_rejects_upload emptyEnv none 0 idleState []
     ⟨"movie.webm", none, [5]⟩ ffmpegNotFoundDetail rfl rfl rfl⟩

/-- C4: a validation-rejected upload (here: disallowed extension .txt,
no session active) does increment the play counter, from 0 to 1: the
route only skips the increment when upload_video raises, but validation
and probe failures come back as returned dictionaries, so
increment_video_stat runs on them exactly as on successes, contradicting
the claim that rejected uploads leave the counter unchanged. -/
theorem C4_rejected_upload_increments_counter :
    route_upload emptyEnv none 0 idleState [] 0 ⟨"clip.txt", none, [1]⟩
      = (idleState, [], 1,
         .json 200 ⟨false, some (invalidExtensionDetail ".txt"), none, none, none⟩) := by
  simp [route_upload, upload_video, check_and_expire_video, truthyStr, idleState,
        increment_video_stat]
  decide

/-- C5: both a validation failure and a probe failure produce a response
whose body is the success=False dictionary with the error reason, but
its HTTP status is the FastAPI default 200, not the claimed 400: the
route's 400 translation only fires for a raised HTTPException(400) and
upload_video returns these failures instead of raising. -/
theorem C5_failure_responses_have_status_200 :
    (route_upload emptyEnv none 3 idleState [] 4 ⟨"clip.txt", none, [1]⟩).2.2.2
      = .json 200 ⟨false, some (invalidExtensionDetail ".txt"), none, none, none⟩ ∧
    (route_upload corruptEnv none 3 idleState [] 4 ⟨"clip.mp4", none, [1]⟩).2.2.2
      = .json 200 ⟨false, some "Video corruption detected: bad data", none, none, none⟩ ∧
    (200 : ℕ) ≠ 400 := by
  refine ⟨?_, ?_, by decide⟩
  · simp [route_upload, upload_video, check_and_expire_video, truthyStr, idleState,
          increment_video_stat]
    decide
  · simp [route_upload, upload_video, check_and_expire_video, truthyStr, idleState,
          increment_video_stat, validate_upload, _validate_extension,
          _validate_content_type, probe_video, _check_video_corruption,
          _ensure_ffmpeg_available, corruptEnv, _save_file, _cleanup_file,
          _get_video_duration]
    decide

end SharedVideo
